import Mathlib

/-!
Verification of the pty-rs terminal-proxy library (src/lib.rs): a shallow
embedding of `TtyServer` (PTY master/slave ownership, `take_slave`, `spawn`)
and `TtyClient` (raw-mode configuration of the peer, splice-loop worker
threads, `wait`, and the `Drop` teardown that restores terminal attributes
and descriptor flags), together with theorems settling the spec claims.

External collaborators (the `fd` crate's `FileDesc`, `Pipe`, `splice_loop`,
`unset_append_flag`, `set_flags`, and the termios / fcntl syscalls) are
modelled explicitly: syscall outcomes are drawn from an environment record,
and side effects on the terminal/descriptor state are tracked in an explicit
system state plus an effect trace.
-/

/-- Terminal attribute set, mirroring the fields of the POSIX `termios`
structure wrapped by the `termios` crate (`c_cc` is the 32-entry control
character array `c_cc[NCCS]`). Flag words are natural numbers interpreted as
32-bit flag sets. -/
structure Termios where
  c_iflag : Nat
  c_oflag : Nat
  c_cflag : Nat
  c_lflag : Nat
  c_line : Nat
  c_cc : List Nat
  c_ispeed : Nat
  c_ospeed : Nat
deriving DecidableEq, Repr

/-- Linux value of the `ECHO` local-mode flag (0o10). -/
def ECHO : Nat := 8
/-- Linux value of the `ICANON` local-mode flag (0o2). -/
def ICANON : Nat := 2
/-- Linux value of the `ISIG` local-mode flag (0o1). -/
def ISIG : Nat := 1
/-- Linux value of the `IGNBRK` input-mode flag (0o1). -/
def IGNBRK : Nat := 1
/-- Linux value of the `BRKINT` input-mode flag (0o2). -/
def BRKINT : Nat := 2
/-- Linux value of the `ICRNL` input-mode flag (0o400). -/
def ICRNL : Nat := 256
/-- Linux index of the `VMIN` control character. -/
def VMIN : Nat := 6
/-- Linux index of the `VTIME` control character. -/
def VTIME : Nat := 5
/-- Linux value of the `O_APPEND` descriptor status flag (0o2000). -/
def O_APPEND : Nat := 1024

/-- Bitwise complement on 32-bit flag words (Rust `!x` on a `u32`-sized
flag type), realised as xor with the all-ones word. -/
def compl32 (x : Nat) : Nat := 4294967295 ^^^ x

/-- The raw attribute derivation performed by `TtyClient::new` on the peer
snapshot (src/lib.rs lines 125-129): clear ECHO, ICANON, ISIG in `c_lflag`;
clear IGNBRK and ICRNL in `c_iflag`; set BRKINT in `c_iflag`; set
`c_cc[VMIN] = 1` and `c_cc[VTIME] = 0`. -/
def rawFrom (t : Termios) : Termios :=
  let t1 := { t with c_lflag := t.c_lflag &&& compl32 (ECHO ||| ICANON ||| ISIG) }
  let t2 := { t1 with c_iflag := t1.c_iflag &&& compl32 (IGNBRK ||| ICRNL) }
  let t3 := { t2 with c_iflag := t2.c_iflag ||| BRKINT }
  { t3 with c_cc := (t3.c_cc.set VMIN 1).set VTIME 0 }

/-- An open file handle (`std::fs::File`), identified by its raw file
descriptor number. -/
structure File where
  fd : Nat
deriving DecidableEq, Repr

/-- A spawned child process handle (`std::process::Child`). -/
structure Child where
  pid : Nat
deriving DecidableEq, Repr

/-- Error kinds used by the library (`io::ErrorKind`). -/
inductive ErrorKind where
  | brokenPipe
  | other
deriving DecidableEq, Repr

/-- An `io::Error` value: a kind plus a message. -/
structure IoError where
  kind : ErrorKind
  msg : String
deriving DecidableEq, Repr

/-- The error `spawn` returns when the slave was already consumed
(src/lib.rs line 104): `io::Error::new(ErrorKind::BrokenPipe, "No TTY slave")`.
The spec taxonomy calls this SlaveAlreadyConsumed. -/
def slaveAlreadyConsumedErr : IoError := ⟨ErrorKind.brokenPipe, "No TTY slave"⟩

/-- A generic synchronous I/O failure from an external call. -/
def ioFail : IoError := ⟨ErrorKind.other, "io error"⟩

/-- The PTY server (src/lib.rs lines 41-45): master handle, optional slave
handle (consumed at most once), and the slave device path. -/
structure TtyServer where
  master : File
  slave : Option File
  path : String
deriving DecidableEq, Repr

/-- `TtyServer::take_slave` (src/lib.rs lines 87-89): `self.slave.take()`,
returning the slave option and leaving `none` behind. -/
def TtyServer.take_slave (s : TtyServer) : Option File × TtyServer :=
  (s.slave, { s with slave := none })

/-- `TtyServer::get_master` (src/lib.rs lines 82-84): a non-owning view of
the master handle; the server state is not touched. -/
def TtyServer.get_master (s : TtyServer) : File :=
  s.master

/-- `TtyServer::spawn` (src/lib.rs lines 92-106): `self.slave.take()`; with
a slave, the command is launched attached to it (launch outcome supplied by
the caller as `launchResult`); with no slave, the BrokenPipe "No TTY slave"
error is returned. Either way the slave field is left `none`. -/
def TtyServer.spawn (s : TtyServer) (launchResult : Except IoError Child) :
    Except IoError Child × TtyServer :=
  match s.take_slave with
  | (some _, s1) => (launchResult, s1)
  | (none, s1) => (Except.error slaveAlreadyConsumedErr, s1)

/-- An operation on a `TtyServer` that may consume the slave. -/
inductive ServerOp where
  | takeSlaveOp
  | spawnOp (launchResult : Except IoError Child)
deriving Repr

/-- State transition of a single server operation. -/
def runServerOp (s : TtyServer) : ServerOp → TtyServer
  | ServerOp.takeSlaveOp => s.take_slave.2
  | ServerOp.spawnOp r => (s.spawn r).2

/-- State after a sequence of server operations. -/
def runServerOps (s : TtyServer) (ops : List ServerOp) : TtyServer :=
  ops.foldl runServerOp s

theorem runServerOp_slave_none (s : TtyServer) (op : ServerOp) :
    (runServerOp s op).slave = none := by
  cases op with
  | takeSlaveOp => rfl
  | spawnOp r =>
    show ((s.spawn r).2).slave = none
    unfold TtyServer.spawn TtyServer.take_slave
    cases s.slave <;> rfl

theorem runServerOps_slave_none (s : TtyServer) (ops : List ServerOp)
    (h : ops ≠ []) : (runServerOps s ops).slave = none := by
  induction ops generalizing s with
  | nil => exact absurd rfl h
  | cons o rest ih =>
    cases rest with
    | nil => exact runServerOp_slave_none s o
    | cons o2 rest2 =>
      exact ih (runServerOp s o) (by simp)

/-- C1: on a server still holding its slave, `take_slave` returns the owned
slave handle on its first invocation, and after any nonempty sequence of
further consuming operations (`take_slave` or `spawn`, in any mix) every
subsequent `take_slave` returns nothing. -/
theorem take_slave_first_some_then_none (s : TtyServer) (f : File)
    (h : s.slave = some f) :
    s.take_slave.1 = some f ∧
      ∀ ops : List ServerOp, ops ≠ [] →
        ((runServerOps s ops).take_slave).1 = none := by
  constructor
  · simpa [TtyServer.take_slave] using h
  · intro ops hne
    simpa [TtyServer.take_slave] using runServerOps_slave_none s ops hne

/-- Witness for C1 at a concrete server: the first call yields the slave,
and after one `take_slave` (or a `spawn`) a further `take_slave` yields
nothing. -/
theorem take_slave_first_some_then_none_witness :
    (TtyServer.take_slave ⟨⟨3⟩, some ⟨4⟩, "/dev/pts/0"⟩).1 = some ⟨4⟩ :=
  (take_slave_first_some_then_none ⟨⟨3⟩, some ⟨4⟩, "/dev/pts/0"⟩ ⟨4⟩ rfl).1

/-- C2: calling `spawn` on a server whose slave is already consumed fails
synchronously with the SlaveAlreadyConsumed error (BrokenPipe, "No TTY
slave") and leaves the server state unchanged. -/
theorem spawn_after_consumed_fails (s : TtyServer)
    (r : Except IoError Child) (h : s.slave = none) :
    (s.spawn r).1 = Except.error slaveAlreadyConsumedErr ∧ (s.spawn r).2 = s := by
  cases s with
  | mk m sl p =>
    cases sl with
    | none => exact ⟨rfl, rfl⟩
    | some f => simp at h

/-- Witness for C2 at a concrete consumed server. -/
theorem spawn_after_consumed_fails_witness :
    (TtyServer.spawn ⟨⟨3⟩, none, "/dev/pts/0"⟩ (Except.ok ⟨77⟩)).1 =
      Except.error slaveAlreadyConsumedErr ∧
    (TtyServer.spawn ⟨⟨3⟩, none, "/dev/pts/0"⟩ (Except.ok ⟨77⟩)).2 =
      ⟨⟨3⟩, none, "/dev/pts/0"⟩ :=
  spawn_after_consumed_fails ⟨⟨3⟩, none, "/dev/pts/0"⟩ (Except.ok ⟨77⟩) rfl

/-- Modelled from the spec: the `fd` crate's `FileDesc` handle abstraction is
not under src/; per the spec's handle model it is either Borrowed (never
closed by its holder) or Owned (closed exactly once on release), selected by
the `close_on_drop` argument of `FileDesc::new(fd, close_on_drop)`. -/
structure FileDesc where
  fd : Nat
  close_on_drop : Bool
deriving DecidableEq, Repr

/-- Modelled from the spec: releasing a `FileDesc` closes its descriptor
exactly when it is Owned (`close_on_drop = true`); the list of descriptors
closed by the release. -/
def FileDesc.dropClose (f : FileDesc) : List Nat :=
  if f.close_on_drop then [f.fd] else []

/-- Modelled from the spec: the `fd` crate's descriptor-flag helper
`unset_append_flag` reads the descriptor's status flags; if the append-mode
flag is set it clears it and returns the original flags value for a later
restore, otherwise it reports nothing to restore. Input is the current flag
word, output is (recorded original, new flag word). -/
def unset_append_flag (flags : Nat) : Option Nat × Nat :=
  if flags &&& O_APPEND ≠ 0 then (some flags, flags &&& compl32 O_APPEND)
  else (none, flags)

/-- The observable terminal/descriptor state the client manipulates:
terminal attributes and descriptor status flags, per file descriptor. -/
structure SysState where
  termioses : Nat → Termios
  flags : Nat → Nat

/-- Outcomes of the external calls made by `TtyClient::new` and by the
`Drop` teardown: whether each fallible call succeeds, and the descriptor
numbers handed out for the two intermediate pipes. -/
structure Env where
  getAttrOk1 : Bool
  getAttrOk2 : Bool
  setAttrOk : Bool
  pipe1Ok : Bool
  pipe2Ok : Bool
  peerFlagOk : Bool
  masterFlagOk : Bool
  m2pR : Nat
  m2pW : Nat
  p2mR : Nat
  p2mW : Nat
deriving DecidableEq, Repr

/-- Outcomes of the external calls made during `Drop` teardown. -/
structure DropEnv where
  setAttrOk : Bool
  setFlagsPeerOk : Bool
  setFlagsMasterOk : Bool
deriving DecidableEq, Repr

/-- The flush behaviour requested of `tcsetattr`; the source only ever uses
`TCSAFLUSH` (apply after flushing pending unread input and unwritten
output). -/
inductive FlushAct where
  | TCSAFLUSH
  | TCSANOW
  | TCSADRAIN
deriving DecidableEq, Repr

/-- One `splice_loop` worker thread: source descriptor, destination
descriptor, and whether it posts to the stopped notification on exit. -/
structure SpliceLoop where
  src : Nat
  dst : Nat
  notifies : Bool
deriving DecidableEq, Repr

/-- The effects performed by a call: worker threads spawned (in spawn
order), `tcsetattr` applications attempted (descriptor, flush mode,
attribute set), and `set_flags` restores attempted (descriptor, flags). -/
structure Trace where
  loops : List SpliceLoop
  attrCalls : List (Nat × FlushAct × Termios)
  flagCalls : List (Nat × Nat)
deriving DecidableEq, Repr

/-- The empty trace. -/
def emptyTrace : Trace := ⟨[], [], []⟩

/-- The terminal-proxy client (src/lib.rs lines 47-57): owned master and
peer descriptors, the recorded original append flags, the snapshot of the
peer's terminal attributes, and the shared cancellation flag (the
single-slot notification receiver is modelled separately in `waitLoop`). -/
structure TtyClient where
  master : FileDesc
  master_status : Option Nat
  peer : FileDesc
  peer_status : Option Nat
  termios_orig : Termios
  do_flush : Bool
deriving DecidableEq, Repr

/-- `TtyClient::new` (src/lib.rs lines 120-174), step by step in source
order: snapshot the peer attributes, derive and apply the raw set with
TCSAFLUSH, create the master-to-peer pipe, spawn its first splice loop,
clear the peer's append flag, spawn the second loop, create the
peer-to-master pipe, spawn its first loop, clear the master's append flag,
spawn the final (notifying) loop, and assemble the client taking ownership
of both descriptors. Each fallible external call returns the error
synchronously when `env` fails it; effects already performed are kept. -/
def ttyClientNew (env : Env) (masterFd peerFd : Nat) (st : SysState) :
    Except IoError TtyClient × SysState × Trace :=
  if env.getAttrOk1 then
    let termios_orig := st.termioses peerFd
    if env.getAttrOk2 then
      let termios_peer := rawFrom (st.termioses peerFd)
      let tr1 : Trace :=
        { emptyTrace with attrCalls := [(peerFd, FlushAct.TCSAFLUSH, termios_peer)] }
      if env.setAttrOk then
        let st1 : SysState :=
          { st with termioses := Function.update st.termioses peerFd termios_peer }
        if env.pipe1Ok then
          let tr2 := { tr1 with loops := tr1.loops ++ [⟨masterFd, env.m2pW, false⟩] }
          if env.peerFlagOk then
            let peerRes := unset_append_flag (st1.flags peerFd)
            let st2 : SysState :=
              { st1 with flags := Function.update st1.flags peerFd peerRes.2 }
            let tr3 := { tr2 with loops := tr2.loops ++ [⟨env.m2pR, peerFd, false⟩] }
            if env.pipe2Ok then
              let tr4 := { tr3 with loops := tr3.loops ++ [⟨peerFd, env.p2mW, false⟩] }
              if env.masterFlagOk then
                let masterRes := unset_append_flag (st2.flags masterFd)
                let st3 : SysState :=
                  { st2 with flags := Function.update st2.flags masterFd masterRes.2 }
                let tr5 := { tr4 with loops := tr4.loops ++ [⟨env.p2mR, masterFd, true⟩] }
                (Except.ok
                  { master := ⟨masterFd, true⟩
                    master_status := masterRes.1
                    peer := ⟨peerFd, true⟩
                    peer_status := peerRes.1
                    termios_orig := termios_orig
                    do_flush := false }, st3, tr5)
              else (Except.error ioFail, st2, tr4)
            else (Except.error ioFail, st2, tr3)
          else (Except.error ioFail, st1, tr2)
        else (Except.error ioFail, st1, tr1)
      else (Except.error ioFail, st, tr1)
    else (Except.error ioFail, st, emptyTrace)
  else (Except.error ioFail, st, emptyTrace)

/-- `TtyServer::new_client` (src/lib.rs lines 76-79): wraps the server's
master descriptor in a Borrowed (`close_on_drop = false`) `FileDesc` and
hands its raw descriptor number to `TtyClient::new`. -/
def TtyServer.new_client (srv : TtyServer) (env : Env) (peerFd : Nat)
    (st : SysState) : Except IoError TtyClient × SysState × Trace :=
  ttyClientNew env (FileDesc.mk srv.master.fd false).fd peerFd st

/-- The `Drop` teardown of `TtyClient` (src/lib.rs lines 186-197): set the
cancellation flag, attempt to restore the peer's original terminal
attributes with TCSAFLUSH, then for peer and master in that order attempt to
restore the recorded append flags; every failure is ignored and every step
is attempted. Returns the resulting state, the trace of attempted restore
calls, and the final cancellation-flag value. -/
def ttyClientDrop (denv : DropEnv) (c : TtyClient) (st : SysState) :
    SysState × Trace × Bool :=
  let tr1 : Trace :=
    { emptyTrace with attrCalls := [(c.peer.fd, FlushAct.TCSAFLUSH, c.termios_orig)] }
  let st1 : SysState :=
    if denv.setAttrOk then
      { st with termioses := Function.update st.termioses c.peer.fd c.termios_orig }
    else st
  let step := fun (acc : SysState × Trace) (e : FileDesc × Option Nat × Bool) =>
    match e with
    | (fd, some s, ok) =>
      (if ok then { acc.1 with flags := Function.update acc.1.flags fd.fd s } else acc.1,
        { acc.2 with flagCalls := acc.2.flagCalls ++ [(fd.fd, s)] })
    | (_, none, _) => acc
  let res := [(c.peer, c.peer_status, denv.setFlagsPeerOk),
              (c.master, c.master_status, denv.setFlagsMasterOk)].foldl step (st1, tr1)
  (res.1, res.2, true)

/-- Descriptors closed when a `TtyClient` value is disposed: the implicit
release of its `FileDesc` fields (declaration order: master, then peer). -/
def ttyClientClosedFds (c : TtyClient) : List Nat :=
  c.master.dropClose ++ c.peer.dropClose

/-- An environment in which every external call succeeds; pipe descriptors
are 10/11 (master-to-peer read/write) and 12/13 (peer-to-master). -/
def envOk : Env := ⟨true, true, true, true, true, true, true, 10, 11, 12, 13⟩

/-- A concrete default attribute set (a plausible cooked-mode terminal:
ICRNL in `c_iflag`, ECHO, ICANON and ISIG in `c_lflag`, VTIME 0 and VMIN 1
among 32 control characters). -/
def termios0 : Termios :=
  ⟨256, 4, 191, 11, 0, List.replicate 32 0, 13, 13⟩

/-- A concrete initial system state: every descriptor carries `termios0`
and has no status flags set. -/
def st0 : SysState := ⟨fun _ => termios0, fun _ => 0⟩

/-- The append flag recorded for the peer on a successful construction. -/
def peerFlagSave (p : Nat) (st : SysState) : Option Nat :=
  (unset_append_flag (st.flags p)).1

/-- Descriptor flags after the peer's append flag was processed. -/
def flagsAfterPeer (p : Nat) (st : SysState) : Nat → Nat :=
  Function.update st.flags p (unset_append_flag (st.flags p)).2

/-- The append flag recorded for the master on a successful construction. -/
def masterFlagSave (m p : Nat) (st : SysState) : Option Nat :=
  (unset_append_flag (flagsAfterPeer p st m)).1

/-- The client produced by a fully successful `ttyClientNew`. -/
def newOkClient (m p : Nat) (st : SysState) : TtyClient :=
  ⟨⟨m, true⟩, masterFlagSave m p st, ⟨p, true⟩, peerFlagSave p st,
    st.termioses p, false⟩

/-- The system state after a fully successful `ttyClientNew`. -/
def newOkState (m p : Nat) (st : SysState) : SysState :=
  ⟨Function.update st.termioses p (rawFrom (st.termioses p)),
    Function.update (flagsAfterPeer p st) m
      (unset_append_flag (flagsAfterPeer p st m)).2⟩

/-- The trace of a fully successful `ttyClientNew`: the four splice loops in
spawn order and the single raw-mode application. -/
def newOkTrace (env : Env) (m p : Nat) (st : SysState) : Trace :=
  ⟨[⟨m, env.m2pW, false⟩, ⟨env.m2pR, p, false⟩, ⟨p, env.p2mW, false⟩,
      ⟨env.p2mR, m, true⟩],
    [(p, FlushAct.TCSAFLUSH, rawFrom (st.termioses p))], []⟩

theorem ttyClientNew_allOk (env : Env) (m p : Nat) (st : SysState)
    (h1 : env.getAttrOk1 = true) (h2 : env.getAttrOk2 = true)
    (h3 : env.setAttrOk = true) (h4 : env.pipe1Ok = true)
    (h5 : env.pipe2Ok = true) (h6 : env.peerFlagOk = true)
    (h7 : env.masterFlagOk = true) :
    ttyClientNew env m p st =
      (Except.ok (newOkClient m p st), newOkState m p st, newOkTrace env m p st) := by
  simp [ttyClientNew, h1, h2, h3, h4, h5, h6, h7, newOkClient, newOkState,
    newOkTrace, peerFlagSave, flagsAfterPeer, masterFlagSave, emptyTrace]

theorem ttyClientNew_flags_of_ok {env : Env} {m p : Nat} {st : SysState}
    {c : TtyClient} (h : (ttyClientNew env m p st).1 = Except.ok c) :
    env.getAttrOk1 = true ∧ env.getAttrOk2 = true ∧ env.setAttrOk = true ∧
      env.pipe1Ok = true ∧ env.pipe2Ok = true ∧ env.peerFlagOk = true ∧
      env.masterFlagOk = true := by
  simp only [ttyClientNew] at h
  repeat' split at h
  all_goals simp_all

theorem ttyClientNew_client_of_ok {env : Env} {m p : Nat} {st : SysState}
    {c : TtyClient} (h : (ttyClientNew env m p st).1 = Except.ok c) :
    c = newOkClient m p st := by
  obtain ⟨h1, h2, h3, h4, h5, h6, h7⟩ := ttyClientNew_flags_of_ok h
  rw [ttyClientNew_allOk env m p st h1 h2 h3 h4 h5 h6 h7] at h
  simpa using h.symm

theorem land_eq_zero_of_testBit (x y : Nat)
    (h : ∀ i, x.testBit i = false ∨ y.testBit i = false) : x &&& y = 0 := by
  apply Nat.eq_of_testBit_eq
  intro i
  rw [Nat.testBit_land]
  rcases h i with h1 | h1 <;> simp [h1]

theorem testBit_or_false_of_land_eq_zero {x y : Nat} (h : x &&& y = 0) (i : Nat) :
    x.testBit i = false ∨ y.testBit i = false := by
  have := congrArg (fun n => n.testBit i) h
  simp only [Nat.testBit_land] at this
  rcases Bool.and_eq_false_iff.mp (by simpa using this) with h1 | h1
  · exact Or.inl h1
  · exact Or.inr h1

theorem land_land_eq_zero (x m k : Nat) (h : m &&& k = 0) :
    (x &&& m) &&& k = 0 := by
  apply land_eq_zero_of_testBit
  intro i
  rcases testBit_or_false_of_land_eq_zero h i with h1 | h1
  · exact Or.inl (by simp [Nat.testBit_land, h1])
  · exact Or.inr h1

theorem lor_land_eq_zero (y b k : Nat) (hy : y &&& k = 0) (hb : b &&& k = 0) :
    (y ||| b) &&& k = 0 := by
  apply land_eq_zero_of_testBit
  intro i
  rcases testBit_or_false_of_land_eq_zero hy i with h1 | h1
  · rcases testBit_or_false_of_land_eq_zero hb i with h2 | h2
    · exact Or.inl (by simp [Nat.testBit_lor, h1, h2])
    · exact Or.inr h2
  · exact Or.inr h1

theorem lor_land_self (y b : Nat) : (y ||| b) &&& b = b := by
  apply Nat.eq_of_testBit_eq
  intro i
  rw [Nat.testBit_land, Nat.testBit_lor]
  cases hy : y.testBit i <;> cases hb : b.testBit i <;> rfl

theorem rawFrom_c_lflag (t : Termios) :
    (rawFrom t).c_lflag = t.c_lflag &&& compl32 (ECHO ||| ICANON ||| ISIG) := rfl

theorem rawFrom_c_iflag (t : Termios) :
    (rawFrom t).c_iflag = (t.c_iflag &&& compl32 (IGNBRK ||| ICRNL)) ||| BRKINT := rfl

theorem rawFrom_c_cc (t : Termios) :
    (rawFrom t).c_cc = (t.c_cc.set VMIN 1).set VTIME 0 := rfl

/-- C5: on every successful construction, the attribute set applied to the
peer is derived from the snapshot with ECHO, ICANON and ISIG cleared, ICRNL
and IGNBRK cleared, BRKINT set, `c_cc[VMIN] = 1` and `c_cc[VTIME] = 0`, and
it is applied with the TCSAFLUSH flush of pending input and output. -/
theorem new_applies_raw_attrs (env : Env) (m p : Nat) (st : SysState)
    (c : TtyClient) (h : (ttyClientNew env m p st).1 = Except.ok c)
    (hlen : (st.termioses p).c_cc.length = 32) :
    (ttyClientNew env m p st).2.2.attrCalls =
        [(p, FlushAct.TCSAFLUSH, rawFrom (st.termioses p))] ∧
      (rawFrom (st.termioses p)).c_lflag &&& ECHO = 0 ∧
      (rawFrom (st.termioses p)).c_lflag &&& ICANON = 0 ∧
      (rawFrom (st.termioses p)).c_lflag &&& ISIG = 0 ∧
      (rawFrom (st.termioses p)).c_iflag &&& ICRNL = 0 ∧
      (rawFrom (st.termioses p)).c_iflag &&& IGNBRK = 0 ∧
      (rawFrom (st.termioses p)).c_iflag &&& BRKINT = BRKINT ∧
      (rawFrom (st.termioses p)).c_cc[VMIN]? = some 1 ∧
      (rawFrom (st.termioses p)).c_cc[VTIME]? = some 0 := by
  obtain ⟨h1, h2, h3, h4, h5, h6, h7⟩ := ttyClientNew_flags_of_ok h
  rw [ttyClientNew_allOk env m p st h1 h2 h3 h4 h5 h6 h7]
  refine ⟨rfl, ?_, ?_, ?_, ?_, ?_, ?_, ?_, ?_⟩
  · rw [rawFrom_c_lflag]; exact land_land_eq_zero _ _ _ (by decide)
  · rw [rawFrom_c_lflag]; exact land_land_eq_zero _ _ _ (by decide)
  · rw [rawFrom_c_lflag]; exact land_land_eq_zero _ _ _ (by decide)
  · rw [rawFrom_c_iflag]
    exact lor_land_eq_zero _ _ _ (land_land_eq_zero _ _ _ (by decide)) (by decide)
  · rw [rawFrom_c_iflag]
    exact lor_land_eq_zero _ _ _ (land_land_eq_zero _ _ _ (by decide)) (by decide)
  · rw [rawFrom_c_iflag]; exact lor_land_self _ _
  · rw [rawFrom_c_cc, List.getElem?_set_ne (by decide : VTIME ≠ VMIN)]
    exact List.getElem?_set_eq_of_lt 1 (by simp only [VMIN]; omega)
  · rw [rawFrom_c_cc]
    refine List.getElem?_set_eq_of_lt 0 ?_
    rw [List.length_set]
    simp only [VTIME]; omega

/-- Witness for C5: at a concrete successful construction the applied set
has VMIN 1 and all the required flag bits. -/
theorem new_applies_raw_attrs_witness :
    (rawFrom (st0.termioses 5)).c_cc[VMIN]? = some 1 ∧
      (rawFrom (st0.termioses 5)).c_lflag &&& ECHO = 0 :=
  have h := new_applies_raw_attrs envOk 3 5 st0 (newOkClient 3 5 st0)
    (by rw [ttyClientNew_allOk envOk 3 5 st0 rfl rfl rfl rfl rfl rfl rfl])
    (by decide)
  ⟨h.2.2.2.2.2.2.2.1, h.2.1⟩

/-- C10: the raw-mode configuration touches only the peer's local-mode
flags, input-mode flags and the VMIN/VTIME control characters: on a
successful construction every other field of the applied attribute set
(output modes, control modes, line discipline, speeds, and all other
control characters) equals the snapshot, and terminal attributes of every
descriptor other than the peer are untouched. -/
theorem raw_config_frame (env : Env) (m p : Nat) (st : SysState)
    (c : TtyClient) (h : (ttyClientNew env m p st).1 = Except.ok c) :
    (ttyClientNew env m p st).2.2.attrCalls =
        [(p, FlushAct.TCSAFLUSH, rawFrom (st.termioses p))] ∧
      (∀ q, q ≠ p → (ttyClientNew env m p st).2.1.termioses q = st.termioses q) ∧
      (rawFrom (st.termioses p)).c_oflag = (st.termioses p).c_oflag ∧
      (rawFrom (st.termioses p)).c_cflag = (st.termioses p).c_cflag ∧
      (rawFrom (st.termioses p)).c_line = (st.termioses p).c_line ∧
      (rawFrom (st.termioses p)).c_ispeed = (st.termioses p).c_ispeed ∧
      (rawFrom (st.termioses p)).c_ospeed = (st.termioses p).c_ospeed ∧
      ∀ i, i ≠ VMIN → i ≠ VTIME →
        (rawFrom (st.termioses p)).c_cc[i]? = (st.termioses p).c_cc[i]? := by
  obtain ⟨h1, h2, h3, h4, h5, h6, h7⟩ := ttyClientNew_flags_of_ok h
  rw [ttyClientNew_allOk env m p st h1 h2 h3 h4 h5 h6 h7]
  refine ⟨rfl, ?_, rfl, rfl, rfl, rfl, rfl, ?_⟩
  · intro q hq
    exact Function.update_noteq hq _ _
  · intro i hvmin hvtime
    rw [rawFrom_c_cc, List.getElem?_set_ne (fun hh => hvtime hh.symm),
      List.getElem?_set_ne (fun hh => hvmin hh.symm)]

/-- Witness for C10 at a concrete successful construction: descriptor 9 is
untouched and control character 0 is preserved. -/
theorem raw_config_frame_witness :
    (ttyClientNew envOk 3 5 st0).2.1.termioses 9 = st0.termioses 9 ∧
      (rawFrom (st0.termioses 5)).c_cc[0]? = (st0.termioses 5).c_cc[0]? :=
  have h := raw_config_frame envOk 3 5 st0 (newOkClient 3 5 st0)
    (by rw [ttyClientNew_allOk envOk 3 5 st0 rfl rfl rfl rfl rfl rfl rfl])
  ⟨h.2.1 9 (by decide), h.2.2.2.2.2.2.2 0 (by decide) (by decide)⟩

/-- The wait loop of `TtyClient::wait` (src/lib.rs lines 177-181): at check
`i` the shared cancellation flag is loaded; if it is set the call returns
(the returned value is the index of the successful check, so `n - i` receive
calls were performed in between), otherwise the loop blocks on the
notification channel once more and re-checks. `flag` gives the value
observed at each check and `fuel` bounds the number of checks modelled. -/
def waitLoop (flag : Nat → Bool) : Nat → Nat → Option Nat
  | 0, _ => none
  | fuel + 1, i => if flag i then some i else waitLoop flag fuel (i + 1)

theorem waitLoop_some (flag : Nat → Bool) :
    ∀ fuel i n, waitLoop flag fuel i = some n →
      flag n = true ∧ ∀ k, i ≤ k → k < n → flag k = false := by
  intro fuel
  induction fuel with
  | zero => intro i n h; simp [waitLoop] at h
  | succ fu ih =>
    intro i n h
    rw [waitLoop] at h
    by_cases hf : flag i
    · rw [if_pos hf] at h
      have hin : i = n := by injection h
      subst hin
      exact ⟨hf, fun k hk1 hk2 => absurd hk1 (by omega)⟩
    · rw [if_neg hf] at h
      obtain ⟨h1, h2⟩ := ih (i + 1) n h
      refine ⟨h1, fun k hk1 hk2 => ?_⟩
      by_cases hk : k = i
      · subst hk; simpa using hf
      · exact h2 k (by omega) hk2

/-- C9: the wait loop returns only on observing the cancellation flag true —
every earlier check, including any spurious or premature wakeup, saw the
flag false and looped again — and whenever the flag is already true at the
first check (a second call, or a call after the binding stopped) it returns
immediately at that very check, performing no receive. -/
theorem wait_returns_iff_flag (flag : Nat → Bool) (fuel i n : Nat) :
    (waitLoop flag fuel i = some n →
        flag n = true ∧ ∀ k, i ≤ k → k < n → flag k = false) ∧
      (flag i = true → 0 < fuel → waitLoop flag fuel i = some i) := by
  constructor
  · exact waitLoop_some flag fuel i n
  · intro hf hfuel
    cases fuel with
    | zero => omega
    | succ fu => rw [waitLoop, if_pos hf]

/-- Witness for C9: with the flag already set, the loop returns at its very
first check. -/
theorem wait_returns_iff_flag_witness :
    waitLoop (fun _ => true) 1 0 = some 0 :=
  (wait_returns_iff_flag (fun _ => true) 1 0 0).2 rfl (by decide)

/-- Counterexample to C3 as stated: with every call succeeding except the
peer descriptor-flag query, `TtyClient::new` returns an error synchronously,
yet a transfer-loop worker thread (master to pipe) has already been started
by the failed call. -/
theorem new_error_after_worker_started_cex :
    (ttyClientNew { envOk with peerFlagOk := false } 3 5 st0).1 =
        Except.error ioFail ∧
      (ttyClientNew { envOk with peerFlagOk := false } 3 5 st0).2.2.loops =
        [⟨3, 11, false⟩] :=
  ⟨rfl, rfl⟩

/-- C3 (amended): every failing external call during `TtyClient::new`
propagates its error synchronously and no client value is produced; a
failure of the terminal-attribute query/apply or of the first pipe
allocation starts no worker thread, but a failure of the peer flag query
happens after one transfer-loop thread has been started, of the second pipe
allocation after two, and of the master flag query after three; a successful
construction starts exactly four. -/
theorem new_error_sync_workers_by_stage (env : Env) (m p : Nat)
    (st : SysState) :
    ((∃ c, (ttyClientNew env m p st).1 = Except.ok c) ∨
        (ttyClientNew env m p st).1 = Except.error ioFail) ∧
      (∀ c, (ttyClientNew env m p st).1 = Except.ok c →
        (ttyClientNew env m p st).2.2.loops.length = 4) ∧
      ((env.getAttrOk1 = false ∨ env.getAttrOk2 = false ∨
          env.setAttrOk = false ∨ env.pipe1Ok = false) →
        (ttyClientNew env m p st).1 = Except.error ioFail ∧
          (ttyClientNew env m p st).2.2.loops = []) ∧
      (env.getAttrOk1 = true → env.getAttrOk2 = true → env.setAttrOk = true →
        env.pipe1Ok = true → env.peerFlagOk = false →
        (ttyClientNew env m p st).1 = Except.error ioFail ∧
          (ttyClientNew env m p st).2.2.loops.length = 1) ∧
      (env.getAttrOk1 = true → env.getAttrOk2 = true → env.setAttrOk = true →
        env.pipe1Ok = true → env.peerFlagOk = true → env.pipe2Ok = false →
        (ttyClientNew env m p st).1 = Except.error ioFail ∧
          (ttyClientNew env m p st).2.2.loops.length = 2) ∧
      (env.getAttrOk1 = true → env.getAttrOk2 = true → env.setAttrOk = true →
        env.pipe1Ok = true → env.peerFlagOk = true → env.pipe2Ok = true →
        env.masterFlagOk = false →
        (ttyClientNew env m p st).1 = Except.error ioFail ∧
          (ttyClientNew env m p st).2.2.loops.length = 3) := by
  obtain ⟨b1, b2, b3, b4, b5, b6, b7, n1, n2, n3, n4⟩ := env
  cases b1 <;> cases b2 <;> cases b3 <;> cases b4 <;> cases b5 <;>
    cases b6 <;> cases b7 <;>
    simp [ttyClientNew, emptyTrace]

/-- Witness for C3 (amended) at a concrete environment failing the second
pipe allocation: synchronous error with two loops already started. -/
theorem new_error_sync_workers_by_stage_witness :
    (ttyClientNew { envOk with pipe2Ok := false } 3 5 st0).1 =
        Except.error ioFail ∧
      (ttyClientNew { envOk with pipe2Ok := false } 3 5 st0).2.2.loops.length
        = 2 :=
  (new_error_sync_workers_by_stage { envOk with pipe2Ok := false } 3 5
      st0).2.2.2.2.1 rfl rfl rfl rfl rfl rfl

/-- A concrete server owning master descriptor 3. -/
def srv0 : TtyServer := ⟨⟨3⟩, some ⟨4⟩, "/dev/pts/0"⟩

/-- C4 failing evaluation: `new_client` lends the server's master descriptor
as a Borrowed handle, but the resulting client stores it in an Owned
`FileDesc` (close_on_drop = true), so disposing the client closes the very
descriptor that is the server's master handle while the server still
exists. -/
theorem client_drop_closes_server_master :
    (srv0.new_client envOk 5 st0).1 = Except.ok (newOkClient 3 5 st0) ∧
      srv0.master.fd ∈ ttyClientClosedFds (newOkClient 3 5 st0) :=
  ⟨rfl, by decide⟩

theorem ttyClientDrop_termioses_peer {denv : DropEnv} (c : TtyClient)
    (st : SysState) (hd : denv.setAttrOk = true) :
    (ttyClientDrop denv c st).1.termioses c.peer.fd = c.termios_orig := by
  rcases hps : c.peer_status with _ | s1 <;>
    rcases hms : c.master_status with _ | s2 <;>
      simp [ttyClientDrop, hps, hms, hd, Function.update_same] <;>
      (repeat' split) <;> simp [Function.update_same]

theorem ttyClientDrop_attrCalls (denv : DropEnv) (c : TtyClient)
    (st : SysState) :
    (ttyClientDrop denv c st).2.1.attrCalls =
      [(c.peer.fd, FlushAct.TCSAFLUSH, c.termios_orig)] := by
  rcases hps : c.peer_status with _ | s1 <;>
    rcases hms : c.master_status with _ | s2 <;>
      simp [ttyClientDrop, hps, hms, emptyTrace]

/-- C7: teardown never propagates an error and runs every restore step to
completion unconditionally: for every failure pattern it returns normally
with the cancellation flag set, attempts the attribute restore on the peer
with TCSAFLUSH, attempts the flag restore for exactly the endpoints with a
recorded status (peer first, then master), and its attempted-call trace is
the same whichever restores fail and whatever the surrounding state. -/
theorem drop_total_restore_trace (denv denv' : DropEnv) (c : TtyClient)
    (st st' : SysState) :
    (ttyClientDrop denv c st).2.2 = true ∧
      (ttyClientDrop denv c st).2.1.attrCalls =
        [(c.peer.fd, FlushAct.TCSAFLUSH, c.termios_orig)] ∧
      (ttyClientDrop denv c st).2.1.flagCalls =
        (match c.peer_status with
          | some s => [(c.peer.fd, s)]
          | none => []) ++
        (match c.master_status with
          | some s => [(c.master.fd, s)]
          | none => []) ∧
      (ttyClientDrop denv c st).2.1 = (ttyClientDrop denv' c st').2.1 := by
  rcases hps : c.peer_status with _ | s1 <;>
    rcases hms : c.master_status with _ | s2 <;>
      simp [ttyClientDrop, hps, hms, emptyTrace]

/-- C6: for a client built by a successful construction from state `st`,
teardown (with the restore call succeeding) sets the peer's terminal
attributes back, field for field, to the pre-construction snapshot — from
any intermediate state the running loops may have produced — and the
restore is applied with the TCSAFLUSH flush. -/
theorem drop_restores_termios_snapshot (env : Env) (denv : DropEnv)
    (m p : Nat) (st st' : SysState) (c : TtyClient)
    (h : (ttyClientNew env m p st).1 = Except.ok c)
    (hd : denv.setAttrOk = true) :
    (ttyClientDrop denv c st').1.termioses p = st.termioses p ∧
      (ttyClientDrop denv c st').2.1.attrCalls =
        [(p, FlushAct.TCSAFLUSH, st.termioses p)] := by
  have hc := ttyClientNew_client_of_ok h
  subst hc
  constructor
  · have := ttyClientDrop_termioses_peer (newOkClient m p st) st' hd
    simpa [newOkClient] using this
  · have := ttyClientDrop_attrCalls denv (newOkClient m p st) st'
    simpa [newOkClient] using this

/-- Witness for C6 at a concrete construction and teardown. -/
theorem drop_restores_termios_snapshot_witness :
    (ttyClientDrop ⟨true, true, true⟩ (newOkClient 3 5 st0) st0).1.termioses 5
        = st0.termioses 5 ∧
      (ttyClientDrop ⟨true, true, true⟩ (newOkClient 3 5 st0)
          st0).2.1.attrCalls = [(5, FlushAct.TCSAFLUSH, st0.termioses 5)] :=
  drop_restores_termios_snapshot envOk ⟨true, true, true⟩ 3 5 st0 st0
    (newOkClient 3 5 st0)
    (by rw [ttyClientNew_allOk envOk 3 5 st0 rfl rfl rfl rfl rfl rfl rfl]) rfl

theorem ttyClientDrop_flags_peer_some {denv : DropEnv} {c : TtyClient}
    {s : Nat} (st : SysState) (hps : c.peer_status = some s)
    (hdp : denv.setFlagsPeerOk = true) (hne : c.peer.fd ≠ c.master.fd) :
    (ttyClientDrop denv c st).1.flags c.peer.fd = s := by
  obtain ⟨da, dp, dm⟩ := denv
  rcases hms : c.master_status with _ | s2 <;> cases da <;> cases dm <;>
    simp_all [ttyClientDrop, Function.update_same, Function.update_noteq hne]

theorem ttyClientDrop_flags_master_some {denv : DropEnv} {c : TtyClient}
    {s : Nat} (st : SysState) (hms : c.master_status = some s)
    (hdm : denv.setFlagsMasterOk = true) :
    (ttyClientDrop denv c st).1.flags c.master.fd = s := by
  obtain ⟨da, dp, dm⟩ := denv
  rcases hps : c.peer_status with _ | s1 <;> cases da <;> cases dp <;>
    simp_all [ttyClientDrop, Function.update_same]

theorem ttyClientDrop_flags_untouched {denv : DropEnv} {c : TtyClient}
    (st : SysState) (q : Nat)
    (hp : c.peer_status = none ∨ q ≠ c.peer.fd)
    (hm : c.master_status = none ∨ q ≠ c.master.fd) :
    (ttyClientDrop denv c st).1.flags q = st.flags q := by
  obtain ⟨da, dp, dm⟩ := denv
  rcases hps : c.peer_status with _ | s1 <;>
    rcases hms : c.master_status with _ | s2 <;>
      cases da <;> cases dp <;> cases dm <;>
      simp_all [ttyClientDrop, Function.update_noteq]

/-- C8: per endpoint (peer, then master) of a successfully constructed
client on distinct descriptors: if the endpoint's append-mode flag was set
at construction, construction clears it and records the original flag word,
and teardown (with its restore calls succeeding) restores exactly that
word; if it was not set, nothing is recorded and teardown leaves that
endpoint's flags untouched. -/
theorem append_flag_clear_and_restore (env : Env) (denv : DropEnv)
    (m p : Nat) (st st' : SysState) (c : TtyClient)
    (h : (ttyClientNew env m p st).1 = Except.ok c) (hmp : m ≠ p)
    (hdp : denv.setFlagsPeerOk = true) (hdm : denv.setFlagsMasterOk = true) :
    (st.flags p &&& O_APPEND ≠ 0 →
        c.peer_status = some (st.flags p) ∧
          (ttyClientNew env m p st).2.1.flags p &&& O_APPEND = 0 ∧
          (ttyClientDrop denv c st').1.flags p = st.flags p) ∧
      (st.flags p &&& O_APPEND = 0 →
        c.peer_status = none ∧
          (ttyClientDrop denv c st').1.flags p = st'.flags p) ∧
      (st.flags m &&& O_APPEND ≠ 0 →
        c.master_status = some (st.flags m) ∧
          (ttyClientNew env m p st).2.1.flags m &&& O_APPEND = 0 ∧
          (ttyClientDrop denv c st').1.flags m = st.flags m) ∧
      (st.flags m &&& O_APPEND = 0 →
        c.master_status = none ∧
          (ttyClientDrop denv c st').1.flags m = st'.flags m) := by
  obtain ⟨h1, h2, h3, h4, h5, h6, h7⟩ := ttyClientNew_flags_of_ok h
  have hc := ttyClientNew_client_of_ok h
  subst hc
  rw [ttyClientNew_allOk env m p st h1 h2 h3 h4 h5 h6 h7]
  have hfm : flagsAfterPeer p st m = st.flags m :=
    Function.update_noteq hmp _ _
  refine ⟨fun hp => ?_, fun hp => ?_, fun hm2 => ?_, fun hm2 => ?_⟩
  · have e1 : (newOkClient m p st).peer_status = some (st.flags p) := by
      simp [newOkClient, peerFlagSave, unset_append_flag, hp]
    refine ⟨e1, ?_, ?_⟩
    · show (newOkState m p st).flags p &&& O_APPEND = 0
      have e2 : (newOkState m p st).flags p =
          st.flags p &&& compl32 O_APPEND := by
        show Function.update (flagsAfterPeer p st) m _ p = _
        rw [Function.update_noteq (Ne.symm hmp), flagsAfterPeer,
          Function.update_same, unset_append_flag, if_pos hp]
      rw [e2]
      exact land_land_eq_zero _ _ _ (by decide)
    · exact ttyClientDrop_flags_peer_some st' e1 hdp (Ne.symm hmp)
  · have e1 : (newOkClient m p st).peer_status = none := by
      simp [newOkClient, peerFlagSave, unset_append_flag, hp]
    exact ⟨e1, ttyClientDrop_flags_untouched st' p (Or.inl e1)
      (Or.inr (Ne.symm hmp))⟩
  · have e1 : (newOkClient m p st).master_status = some (st.flags m) := by
      simp [newOkClient, masterFlagSave, hfm, unset_append_flag, hm2]
    refine ⟨e1, ?_, ?_⟩
    · show (newOkState m p st).flags m &&& O_APPEND = 0
      have e2 : (newOkState m p st).flags m =
          st.flags m &&& compl32 O_APPEND := by
        show Function.update (flagsAfterPeer p st) m _ m = _
        rw [Function.update_same, hfm, unset_append_flag, if_pos hm2]
      rw [e2]
      exact land_land_eq_zero _ _ _ (by decide)
    · exact ttyClientDrop_flags_master_some st' e1 hdm
  · have e1 : (newOkClient m p st).master_status = none := by
      simp [newOkClient, masterFlagSave, hfm, unset_append_flag, hm2]
    exact ⟨e1, ttyClientDrop_flags_untouched st' m (Or.inr hmp)
      (Or.inl e1)⟩

/-- A concrete initial state in which the peer descriptor 5 has the append
flag set (flag word `O_APPEND`) and the master descriptor 3 does not. -/
def stAppend : SysState :=
  ⟨fun _ => termios0, fun fd => if fd = 5 then O_APPEND else 0⟩

/-- Witness for C8 at a concrete construction: descriptor 5 had append set,
so its original flag word is recorded and construction leaves the flag
cleared; descriptor 3 had it clear, so nothing is recorded. -/
theorem append_flag_clear_and_restore_witness :
    ((newOkClient 3 5 stAppend).peer_status = some (stAppend.flags 5) ∧
        (ttyClientNew envOk 3 5 stAppend).2.1.flags 5 &&& O_APPEND = 0 ∧
        (ttyClientDrop ⟨true, true, true⟩ (newOkClient 3 5 stAppend)
            stAppend).1.flags 5 = stAppend.flags 5) ∧
      (newOkClient 3 5 stAppend).master_status = none :=
  have h := append_flag_clear_and_restore envOk ⟨true, true, true⟩ 3 5
    stAppend stAppend (newOkClient 3 5 stAppend)
    (by rw [ttyClientNew_allOk envOk 3 5 stAppend rfl rfl rfl rfl rfl rfl rfl])
    (by decide) rfl rfl
  ⟨h.1 (by decide), (h.2.2.2 (by decide)).1⟩

